import Mathlib

/-!
Shallow embedding of the Anubis IDE session lifecycle manager
(src/api/anubis/views/public/ide.py): the initialize, stop and poll
handlers, with the session store, the poll cache and the orchestration
backend made explicit.  Timestamps are integers counting seconds;
request state (current user, query arguments, configuration) is passed
explicitly.  Collaborators that live outside this slice of the source
(initialize_ide, theia_poll_ide, the response helpers) are modelled
from the specification, each marked as such in its doc comment.
-/

namespace Anubis

/-- Opaque per-session payload reported by the orchestration backend
(the `data` blob of a session): the reported phase plus an opaque rest. -/
structure SessionData where
  state : String
  session_id : Nat
deriving DecidableEq

/-- A row of the TheiaSession table (anubis.models.TheiaSession), with the
fields this slice of the code reads or writes. -/
structure TheiaSession where
  id : Nat
  owner_id : Nat
  assignment_id : Nat
  course_id : Nat
  active : Bool
  state : String
  created : Int
  ended : Option Int
  image_id : Nat
  repo_url : String
  playground : Bool
  network_locked : Bool
  network_policy : String
  persistent_storage : Bool
  autosave : Bool
  resources : String
  privileged : Bool
  admin : Bool
  credentials : Bool
deriving DecidableEq

/-- Modelled from the spec: the derived opaque `data` blob of a session
(section 3, orchestration-reported connection and status detail, carrying
the reported phase). -/
def TheiaSession.data (s : TheiaSession) : SessionData :=
  { state := s.state, session_id := s.id }

/-- The assignment-level Theia options blob (a dict with optional keys,
read with `.get` and a default in the source). -/
structure TheiaOptions where
  network_policy : Option String := none
  resources : Option String := none
deriving DecidableEq

/-- A row of the Assignment table, with the fields this slice reads. -/
structure Assignment where
  id : Nat
  course_id : Nat
  ide_enabled : Bool
  release_date : Int
  due_date : Int
  github_repo_required : Bool
  theia_image_id : Nat
  theia_options : TheiaOptions
deriving DecidableEq

/-- The requesting user (anubis current_user), with the fields read here. -/
structure User where
  id : Nat
  github_username : Option String
  netid : String
deriving DecidableEq

/-- A row of the AssignmentRepo table. -/
structure AssignmentRepo where
  id : Nat
  owner_id : Nat
  assignment_id : Nat
  repo_url : String
deriving DecidableEq

/-- Modelled from the spec: the default resource limits entry of
THEIA_DEFAULT_OPTIONS (anubis.models, not under src/), an opaque value. -/
def THEIA_DEFAULT_OPTIONS_resources : String := "theia-default-resources"

/-- The body of a success_response: the JSON keys the three handlers emit.
A `none` field is a key that is absent (or null) in the emitted payload. -/
structure Payload where
  active : Option Bool := none
  session : Option SessionData := none
  status : Option String := none
  variant : Option String := none
  loading : Option Bool := none
deriving DecidableEq

/-- Modelled from the spec: the shapes a handler response can take
(section 7).  `ok` is a success_response; `softError` is an
error_response, which at the transport level is still a successful
response carrying a human-readable message; `assertFail` is a req_assert
failure surfaced as a request-level assertion error (a client error);
`exn` is an unhandled exception in the handler. -/
inductive ApiResp where
  | ok (p : Payload)
  | softError (msg : String)
  | assertFail (msg : String)
  | exn
deriving DecidableEq

/-- Modelled from the spec: whether a response succeeds at the transport
level (section 7: soft policy declines are surfaced as successful
responses; validation failures are client errors). -/
def transportSuccess : ApiResp → Bool
  | .ok _ => true
  | .softError _ => true
  | .assertFail _ => false
  | .exn => false

/-! ## Session store queries -/

/-- The active-session query of the initialize handler: sessions of this
owner for this assignment with `active` set, first match. -/
def findActiveSession (store : List TheiaSession) (uid aid : Nat) :
    Option TheiaSession :=
  (store.filter (fun s => s.owner_id == uid && s.assignment_id == aid && s.active)).head?

/-- The last-session query of the initialize handler: inactive sessions of
this owner, ordered by `created` descending, first row. -/
def lastInactiveSession (store : List TheiaSession) (uid : Nat) :
    Option TheiaSession :=
  (store.filter (fun s => s.owner_id == uid && s.active == false)).foldl
    (fun acc s =>
      match acc with
      | none => some s
      | some b => if s.created > b.created then some s else some b)
    none

/-- The repo query of the initialize handler: repos of this owner for this
assignment, first match. -/
def findRepo (repos : List AssignmentRepo) (uid aid : Nat) :
    Option AssignmentRepo :=
  (repos.filter (fun r => r.owner_id == uid && r.assignment_id == aid)).head?

/-- The session lookup of the stop and redirect handlers: the session with
this id owned by this user, first match. -/
def findOwnedSession (store : List TheiaSession) (sid uid : Nat) :
    Option TheiaSession :=
  (store.filter (fun s => s.id == sid && s.owner_id == uid)).head?

/-! ## Initialize handler -/

/-- The request-level environment of the initialize handler: the session
store, the authenticated user, the wall clock, the cooldown configuration
(get_config_int with default 1), whether new Theia sessions are enabled,
whether the user is a course admin for the assignment course, the repo
table, the two raw query arguments, and the id the next created session
will receive. -/
structure InitEnv where
  store : List TheiaSession
  user : User
  now : Int
  cooldown_config : Option Int
  theia_sessions_enabled : Bool
  is_admin : Bool
  repos : List AssignmentRepo
  args_autosave : Option String
  args_persistent_storage : Option String
  fresh_id : Nat

/-- Result of one initialize call: the response, the session store after
the call, and how many creation submissions went to the backend. -/
structure InitOutcome where
  response : ApiResp
  store : List TheiaSession
  submissions : Nat
deriving DecidableEq

/-- Modelled from the spec: initialize_ide (anubis.lms.theia, not under
src/).  Per section 4.4 it builds the immutable configuration snapshot
from its arguments, submits one creation request to the orchestration
backend, and persists a new session record with `active = true`, the
initial orchestration phase, and `ended` unset. -/
def initialize_ide (fresh_id uid : Nat) (image_id assignment_id course_id : Nat)
    (repo_url : String) (playground network_locked : Bool)
    (network_policy : String) (persistent_storage autosave : Bool)
    (resources : String) (privileged admin credentials : Bool)
    (now : Int) : TheiaSession :=
  { id := fresh_id
    owner_id := uid
    assignment_id := assignment_id
    course_id := course_id
    active := true
    state := "Initializing"
    created := now
    ended := none
    image_id := image_id
    repo_url := repo_url
    playground := playground
    network_locked := network_locked
    network_policy := network_policy
    persistent_storage := persistent_storage
    autosave := autosave
    resources := resources
    privileged := privileged
    admin := admin
    credentials := credentials }

/-- Please-wait message of the cooldown branch (lines 74 to 78). -/
def pleaseWaitMsg : String :=
  "Please wait a few more seconds. Your last IDEs home volume is still unmounting."

/-- Outcome of the cooldown gate (lines 59 to 78): `wait` when the last
inactive session used persistent storage and ended less than the
configured cooldown ago; `crash` when that session has no ended
timestamp, so the subtraction raises; `pass` otherwise. -/
inductive CooldownCheck where
  | pass
  | wait
  | crash
deriving DecidableEq

/-- The cooldown gate of the initialize handler, lines 59 to 78 of the
source: find the last inactive session of the user, and if it used a
persistent volume compare the seconds since it ended with the configured
THEIA_VOLUME_COOLDOWN_SECONDS (default 1). -/
def cooldownCheck (env : InitEnv) : CooldownCheck :=
  match lastInactiveSession env.store env.user.id with
  | none => .pass
  | some last =>
    if last.persistent_storage then
      match last.ended with
      | none => .crash
      | some e =>
        if env.now - e < env.cooldown_config.getD 1 then .wait else .pass
    else .pass

/-- Lines 104 to 168 of the source: resolve the repo url when required,
read the option blob and the query arguments, elevate the network policy
for admins, create the session and return it. -/
def ideInitCreate (env : InitEnv) (assignment : Assignment) : InitOutcome :=
  let repoStep : Except String String :=
    if assignment.github_repo_required then
      match env.user.github_username with
      | none => .error "Please link your github account github account on profile page."
      | some _ =>
        match findRepo env.repos env.user.id assignment.id with
        | none => .error "Anubis can not find your assignment repo. Please make sure your github username is set and is correct."
        | some repo => .ok repo.repo_url
    else .ok ""
  match repoStep with
  | .error msg => { response := .assertFail msg, store := env.store, submissions := 0 }
  | .ok repo_url =>
    let options := assignment.theia_options
    let autosave := (env.args_autosave.getD "true") == "true"
    let persistent_storage := (env.args_persistent_storage.getD "true") == "true"
    let network_policy := options.network_policy.getD "os-student"
    let resources := options.resources.getD THEIA_DEFAULT_OPTIONS_resources
    let network_policy := if env.is_admin then "admin" else network_policy
    let session : TheiaSession :=
      initialize_ide env.fresh_id env.user.id assignment.theia_image_id
        assignment.id assignment.course_id repo_url false (!env.is_admin)
        network_policy persistent_storage autosave resources false
        env.is_admin env.is_admin env.now
    { response := .ok { active := some session.active
                        session := some session.data
                        status := some "Session created" }
      store := env.store ++ [session]
      submissions := 1 }

/-- Lines 80 to 102 of the source: assert session starts are enabled, then
for non-admins assert the release date has passed and softly decline when
the due date plus three weeks has passed; admins skip both checks. -/
def ideInitAdmission (env : InitEnv) (assignment : Assignment) : InitOutcome :=
  if env.theia_sessions_enabled = false then
    { response := .assertFail "Theia sessions are not enabled", store := env.store, submissions := 0 }
  else if env.is_admin then
    ideInitCreate env assignment
  else if ¬ (assignment.release_date < env.now) then
    { response := .assertFail "Assignment has not been released", store := env.store, submissions := 0 }
  else if assignment.due_date + 21 * 86400 ≤ env.now then
    { response := .softError "Assignment due date passed over 3 weeks ago. IDEs are disabled."
      store := env.store, submissions := 0 }
  else
    ideInitCreate env assignment

/-- The initialize handler (public_ide_initialize, lines 28 to 168 of the
source): assert IDEs are enabled for the assignment, return any existing
active session unchanged, apply the cooldown gate, then admission and
creation. -/
def public_ide_initialize (env : InitEnv) (assignment : Assignment) : InitOutcome :=
  if assignment.ide_enabled = false then
    { response := .assertFail "IDEs are not enabled for this assignment"
      store := env.store, submissions := 0 }
  else
    match findActiveSession env.store env.user.id assignment.id with
    | some active_session =>
      { response := .ok { active := some active_session.active
                          session := some active_session.data }
        store := env.store, submissions := 0 }
    | none =>
      match cooldownCheck env with
      | .wait =>
        { response := .ok { status := some pleaseWaitMsg, variant := some "warning" }
          store := env.store, submissions := 0 }
      | .crash => { response := .exn, store := env.store, submissions := 0 }
      | .pass => ideInitAdmission env assignment

/-! ## Poll cache and poll handler -/

/-- The poll cache: entries keyed on (session id, user id), each holding a
memoized theia_poll_ide result. -/
abbrev PollCache : Type := List ((Nat × Nat) × Option SessionData)

/-- Look up the cache entry for a key, if one is present. -/
def cacheLookup (c : PollCache) (sid uid : Nat) : Option (Option SessionData) :=
  ((c.filter (fun e => e.1.1 == sid && e.1.2 == uid)).head?).map (fun e => e.2)

/-- Modelled from the spec: cache.delete_memoized removes the memoized
entry for exactly this key (section 4.5, explicit point invalidation). -/
def cacheDelete (c : PollCache) (sid uid : Nat) : PollCache :=
  c.filter (fun e => !(e.1.1 == sid && e.1.2 == uid))

/-- Result of one memoized fetch: the value, the cache afterwards, and how
many fresh backend queries were issued (0 or 1). -/
structure PollFetch where
  value : Option SessionData
  cache : PollCache
  backend_queries : Nat

/-- Modelled from the spec: theia_poll_ide (anubis.lms.theia, not under
src/).  Per section 4.5 it wraps the backend status fetch for a session in
a short-TTL memoization keyed on (session id, user id); an entry older
than the TTL is treated as a miss, so expiry is modelled as the key being
absent from the cache. -/
def theia_poll_ide (backend : Nat → Nat → Option SessionData)
    (c : PollCache) (sid uid : Nat) : PollFetch :=
  match cacheLookup c sid uid with
  | some v => { value := v, cache := c, backend_queries := 0 }
  | none =>
    let v := backend sid uid
    { value := v, cache := c ++ [((sid, uid), v)], backend_queries := 1 }

/-- The phase-to-status lookup of the poll handler (lines 292 to 296 of
the source): a dict with exactly the entries Running and Failed, read with
a (none, none) default. -/
def phaseStatus (state : String) : Option String × Option String :=
  if state == "Running" then
    (some "Session is now ready.", some "success")
  else if state == "Failed" then
    (some "Session failed to start. Please try again.", some "error")
  else
    (none, none)

/-- Result of one poll call: the response, the cache afterwards, and how
many fresh backend queries were issued. -/
structure PollOutcome where
  response : ApiResp
  cache : PollCache
  backend_queries : Nat

/-- The poll handler (public_ide_poll, lines 269 to 306 of the source):
fetch the possibly cached session data, assert it exists, derive the
loading flag from the reported phase and look the phase up in the status
map. -/
def public_ide_poll (backend : Nat → Nat → Option SessionData)
    (c : PollCache) (uid sid : Nat) : PollOutcome :=
  let fetch := theia_poll_ide backend c sid uid
  match fetch.value with
  | none =>
    { response := .assertFail "session does not exist"
      cache := fetch.cache, backend_queries := fetch.backend_queries }
  | some session_data =>
    let loading := !(session_data.state == "Running" ||
                     session_data.state == "Ended" ||
                     session_data.state == "Failed")
    let sv := phaseStatus session_data.state
    { response := .ok { loading := some loading
                        session := some session_data
                        status := sv.1
                        variant := sv.2 }
      cache := fetch.cache, backend_queries := fetch.backend_queries }

/-! ## Stop handler -/

/-- Replace the first element satisfying the predicate, leaving the rest
of the list unchanged (the effect of mutating the first query result and
committing). -/
def updateFirst (p : TheiaSession → Bool) (f : TheiaSession → TheiaSession) :
    List TheiaSession → List TheiaSession
  | [] => []
  | x :: xs => if p x then f x :: xs else x :: updateFirst p f xs

/-- Result of one stop call: the response, the store and the cache
afterwards, and the ids of the teardown jobs enqueued. -/
structure StopOutcome where
  response : ApiResp
  store : List TheiaSession
  cache : PollCache
  enqueued : List Nat

/-- The stop handler (public_ide_stop, lines 225 to 266 of the source):
find the session with this id owned by the caller, assert it exists, mark
it inactive with the call time and state Ended, commit, enqueue a
teardown job and invalidate the poll cache entry for (session id, user
id). -/
def public_ide_stop (store : List TheiaSession) (c : PollCache)
    (uid sid : Nat) (now : Int) : StopOutcome :=
  match findOwnedSession store sid uid with
  | none =>
    { response := .assertFail "session does not exist"
      store := store, cache := c, enqueued := [] }
  | some s =>
    let store2 := updateFirst (fun t => t.id == sid && t.owner_id == uid)
      (fun t => { t with active := false, ended := some now, state := "Ended" }) store
    { response := .ok { status := some "Session stopped.", variant := some "warning" }
      store := store2
      cache := cacheDelete c sid uid
      enqueued := [s.id] }

/-! ## Concrete records for instantiating the theorems -/

/-- Concrete user record. -/
def wUser : User := { id := 1, github_username := some "gh", netid := "ab123" }

/-- Concrete session that is currently active for assignment 2. -/
def wActiveSession : TheiaSession :=
  { id := 10, owner_id := 1, assignment_id := 2, course_id := 3, active := true,
    state := "Running", created := 100, ended := none, image_id := 5,
    repo_url := "", playground := false, network_locked := true,
    network_policy := "os-student", persistent_storage := true, autosave := true,
    resources := "r", privileged := false, admin := false, credentials := false }

/-- Concrete inactive session that used persistent storage, ended at 150. -/
def wEndedSession : TheiaSession :=
  { id := 10, owner_id := 1, assignment_id := 2, course_id := 3, active := false,
    state := "Ended", created := 100, ended := some 150, image_id := 5,
    repo_url := "", playground := false, network_locked := true,
    network_policy := "os-student", persistent_storage := true, autosave := true,
    resources := "r", privileged := false, admin := false, credentials := false }

/-- Concrete assignment with IDEs enabled, released at 50, due at 200. -/
def wAssignment : Assignment :=
  { id := 2, course_id := 3, ide_enabled := true, release_date := 50,
    due_date := 200, github_repo_required := false, theia_image_id := 5,
    theia_options := {} }

/-- Concrete initialize environment over a given store, clock and admin
flag: cooldown configured to 5 seconds, session starts enabled, no repos,
both query arguments absent. -/
def wEnv (store : List TheiaSession) (now : Int) (adm : Bool) : InitEnv :=
  { store := store, user := wUser, now := now, cooldown_config := some 5,
    theia_sessions_enabled := true, is_admin := adm, repos := [],
    args_autosave := none, args_persistent_storage := none, fresh_id := 11 }

/-! ## Helper lemmas -/

/-- Replacing the first match keeps it the first match of the filtered
list, provided the replacement still satisfies the predicate. -/
theorem updateFirst_filter_head (p : TheiaSession → Bool)
    (f : TheiaSession → TheiaSession) (l : List TheiaSession)
    (s : TheiaSession) (hpf : ∀ t, p t = true → p (f t) = true)
    (hs : (l.filter p).head? = some s) :
    ((updateFirst p f l).filter p).head? = some (f s) := by
  rw [List.filter_head?] at hs ⊢
  induction l with
  | nil => simp at hs
  | cons x xs ih =>
    by_cases hx : p x = true
    · rw [List.find?_cons_of_pos _ hx] at hs
      injection hs with h
      subst h
      simp only [updateFirst, if_pos hx]
      rw [List.find?_cons_of_pos _ (hpf x hx)]
    · rw [List.find?_cons_of_neg _ (by simpa using hx)] at hs
      simp only [updateFirst, if_neg hx]
      rw [List.find?_cons_of_neg _ (by simpa using hx)]
      exact ih hs

/-- Deleting a key from the poll cache makes any later lookup of that key
a miss. -/
theorem cacheLookup_cacheDelete (c : PollCache) (sid uid : Nat) :
    cacheLookup (cacheDelete c sid uid) sid uid = none := by
  simp [cacheLookup, cacheDelete, List.filter_filter]

/-- A successful stop, spelled out: the found record is re-stamped in
place, the poll cache key is dropped and one teardown job is enqueued. -/
theorem stop_found_spec (store : List TheiaSession) (c : PollCache)
    (uid sid : Nat) (now : Int) (s : TheiaSession)
    (hs : findOwnedSession store sid uid = some s) :
    public_ide_stop store c uid sid now =
      { response := .ok { status := some "Session stopped.", variant := some "warning" }
        store := updateFirst (fun t => t.id == sid && t.owner_id == uid)
          (fun t => { t with active := false, ended := some now, state := "Ended" }) store
        cache := cacheDelete c sid uid
        enqueued := [s.id] } := by
  simp [public_ide_stop, hs]

/-- After a stop, the owned-session lookup returns the re-stamped record. -/
theorem stop_found_store (store : List TheiaSession) (c : PollCache)
    (uid sid : Nat) (now : Int) (s : TheiaSession)
    (hs : findOwnedSession store sid uid = some s) :
    findOwnedSession ( public_ide_stop store c uid sid now).store sid uid =
      some { s with active := false, ended := some now, state := "Ended" } := by
  rw [stop_found_spec store c uid sid now s hs]
  exact updateFirst_filter_head _ _ store s (fun t ht => by simpa using ht) hs

/-! ## Claim theorems -/

/-- C2: when the caller already has an active session for the assignment,
the initialize handler returns that session and its data unchanged,
leaves the store unchanged, and submits nothing to the backend. -/
theorem initialize_existing_active_session (env : InitEnv)
    (assignment : Assignment) (s : TheiaSession)
    (hide : assignment.ide_enabled = true)
    (hact : findActiveSession env.store env.user.id assignment.id = some s) :
    public_ide_initialize env assignment =
      { response := .ok { active := some s.active, session := some s.data }
        store := env.store, submissions := 0 } := by
  simp [ public_ide_initialize, hide, hact]

/-- C2 witness: a concrete caller with an active session for assignment 2
gets it back unchanged, with no new record and no submission. -/
theorem initialize_existing_active_session_witness :
    public_ide_initialize (wEnv [wActiveSession] 500 false) wAssignment =
      { response := .ok { active := some wActiveSession.active
                          session := some wActiveSession.data }
        store := [wActiveSession], submissions := 0 } :=
  initialize_existing_active_session (wEnv [wActiveSession] 500 false)
    wAssignment wActiveSession rfl rfl

/-- C5: stopping an owned session returns the stopped status, re-stamps
the record in the store as inactive with the call time and state Ended,
drops the poll cache entry keyed on (session id, user id), and the next
poll for that key misses the cache — its fetch returns the fresh backend
answer and issues exactly one backend query. -/
theorem stop_owned_session (store : List TheiaSession) (c : PollCache)
    (uid sid : Nat) (now : Int) (s : TheiaSession)
    (backend : Nat → Nat → Option SessionData)
    (hs : findOwnedSession store sid uid = some s) :
    ( public_ide_stop store c uid sid now).response =
      .ok { status := some "Session stopped.", variant := some "warning" } ∧
    findOwnedSession ( public_ide_stop store c uid sid now).store sid uid =
      some { s with active := false, ended := some now, state := "Ended" } ∧
    cacheLookup ( public_ide_stop store c uid sid now).cache sid uid = none ∧
    ( theia_poll_ide backend ( public_ide_stop store c uid sid now).cache sid uid).value
      = backend sid uid ∧
    ( public_ide_poll backend ( public_ide_stop store c uid sid now).cache uid sid).backend_queries
      = 1 := by
  rw [stop_found_spec store c uid sid now s hs]
  refine ⟨rfl, ?_, ?_, ?_, ?_⟩
  · exact updateFirst_filter_head _ _ store s (fun t ht => ht) hs
  · exact cacheLookup_cacheDelete c sid uid
  · simp [theia_poll_ide, cacheLookup_cacheDelete]
  · cases hb : backend sid uid <;>
      simp [public_ide_poll, theia_poll_ide, cacheLookup_cacheDelete, hb]

/-- C5 witness: stopping the concrete active session 10 of user 1 at time
600, with a cached Running entry present, re-stamps the record, clears
the cache key, and the next poll hits the backend once. -/
theorem stop_owned_session_witness :
    ( public_ide_stop [wActiveSession] [((10, 1), some { state := "Running", session_id := 10 })] 1 10 600).response =
      .ok { status := some "Session stopped.", variant := some "warning" } ∧
    findOwnedSession ( public_ide_stop [wActiveSession] [((10, 1), some { state := "Running", session_id := 10 })] 1 10 600).store 10 1 =
      some { wActiveSession with active := false, ended := some 600, state := "Ended" } ∧
    cacheLookup ( public_ide_stop [wActiveSession] [((10, 1), some { state := "Running", session_id := 10 })] 1 10 600).cache 10 1 = none ∧
    ( theia_poll_ide (fun _ _ => none) ( public_ide_stop [wActiveSession] [((10, 1), some { state := "Running", session_id := 10 })] 1 10 600).cache 10 1).value
      = (fun _ _ => (none : Option SessionData)) 10 1 ∧
    ( public_ide_poll (fun _ _ => none) ( public_ide_stop [wActiveSession] [((10, 1), some { state := "Running", session_id := 10 })] 1 10 600).cache 1 10).backend_queries
      = 1 :=
  stop_owned_session [wActiveSession]
    [((10, 1), some { state := "Running", session_id := 10 })] 1 10 600
    wActiveSession (fun _ _ => none) rfl

/-- C6: when no session with the requested id is owned by the caller —
whether no such id exists at all or the session belongs to someone else —
the stop handler fails with the same not-found assertion message, leaves
the store, the cache and the job queue untouched, and the two failure
scenarios produce identical responses. -/
theorem stop_not_found_indistinguishable (store1 store2 : List TheiaSession)
    (c1 c2 : PollCache) (uid1 uid2 sid1 sid2 : Nat) (now1 now2 : Int)
    (h1 : findOwnedSession store1 sid1 uid1 = none)
    (h2 : findOwnedSession store2 sid2 uid2 = none) :
    public_ide_stop store1 c1 uid1 sid1 now1 =
      { response := .assertFail "session does not exist"
        store := store1, cache := c1, enqueued := [] } ∧
    public_ide_stop store2 c2 uid2 sid2 now2 =
      { response := .assertFail "session does not exist"
        store := store2, cache := c2, enqueued := [] } ∧
    ( public_ide_stop store1 c1 uid1 sid1 now1).response =
      ( public_ide_stop store2 c2 uid2 sid2 now2).response := by
  refine ⟨by simp [public_ide_stop, h1], by simp [public_ide_stop, h2], ?_⟩
  simp [public_ide_stop, h1, h2]

/-- C6 witness: session id 10 does not exist in an empty store, and in a
second store it exists but is owned by user 1 while user 2 calls; both
stops fail with the identical not-found response and change nothing. -/
theorem stop_not_found_indistinguishable_witness :
    public_ide_stop [] [] 1 10 600 =
      { response := .assertFail "session does not exist"
        store := [], cache := [], enqueued := [] } ∧
    public_ide_stop [wActiveSession] [] 2 10 600 =
      { response := .assertFail "session does not exist"
        store := [wActiveSession], cache := [], enqueued := [] } ∧
    ( public_ide_stop [] [] 1 10 600).response =
      ( public_ide_stop [wActiveSession] [] 2 10 600).response :=
  stop_not_found_indistinguishable [] [wActiveSession] [] [] 1 2 10 10 600 600
    rfl rfl

/-- C7: a second stop of a session that is already inactive still
succeeds — the lookup is scoped to the owner only, not to active sessions
— and re-stamps ended with the new call time, state Ended and active
false. -/
theorem stop_double_stop (store : List TheiaSession) (c : PollCache)
    (uid sid : Nat) (now : Int) (s : TheiaSession)
    (hs : findOwnedSession store sid uid = some s)
    (hinactive : s.active = false) :
    ( public_ide_stop store c uid sid now).response =
      .ok { status := some "Session stopped.", variant := some "warning" } ∧
    findOwnedSession ( public_ide_stop store c uid sid now).store sid uid =
      some { s with active := false, ended := some now, state := "Ended" } := by
  rw [stop_found_spec store c uid sid now s hs]
  exact ⟨rfl, updateFirst_filter_head _ _ store s (fun t ht => ht) hs⟩

/-- C7 witness: stopping the concrete already-ended session 10 again at
time 700 succeeds and re-stamps its ended time to 700. -/
theorem stop_double_stop_witness :
    ( public_ide_stop [wEndedSession] [] 1 10 700).response =
      .ok { status := some "Session stopped.", variant := some "warning" } ∧
    findOwnedSession ( public_ide_stop [wEndedSession] [] 1 10 700).store 10 1 =
      some { wEndedSession with active := false, ended := some 700, state := "Ended" } :=
  stop_double_stop [wEndedSession] [] 1 10 700 wEndedSession rfl rfl

/-- C4: when the poll fetch yields session data, the handler sets loading
true exactly when the reported phase is none of Running, Ended, Failed;
phase Running yields the success-variant status with loading false, phase
Failed the error-variant status with loading false, and every other
phase, Ended included, yields no status and no variant. -/
theorem poll_phase_classification (backend : Nat → Nat → Option SessionData)
    (c : PollCache) (uid sid : Nat) (d : SessionData)
    (hd : ( theia_poll_ide backend c sid uid).value = some d) :
    ∃ p : Payload, ( public_ide_poll backend c uid sid).response = .ok p ∧
      (p.loading = some true ↔
        (d.state ≠ "Running" ∧ d.state ≠ "Ended" ∧ d.state ≠ "Failed")) ∧
      (d.state = "Running" →
        p.loading = some false ∧ p.status = some "Session is now ready." ∧
        p.variant = some "success") ∧
      (d.state = "Failed" →
        p.loading = some false ∧
        p.status = some "Session failed to start. Please try again." ∧
        p.variant = some "error") ∧
      (d.state ≠ "Running" → d.state ≠ "Failed" →
        p.status = none ∧ p.variant = none) := by
  refine ⟨{ session := some d
            status := (phaseStatus d.state).1
            variant := (phaseStatus d.state).2
            loading := some (!(d.state == "Running" || d.state == "Ended" ||
                               d.state == "Failed")) },
          by simp [public_ide_poll, hd], ?_, ?_, ?_, ?_⟩
  · by_cases hR : d.state = "Running" <;> by_cases hE : d.state = "Ended" <;>
      by_cases hF : d.state = "Failed" <;> simp [hR, hE, hF]
  · intro hR
    simp [phaseStatus, hR]
  · intro hF
    have hR : d.state ≠ "Running" := by simp [hF]
    simp [phaseStatus, hF, hR]
  · intro hR hF
    simp [phaseStatus, hR, hF]

/-- C4 witness: polling with an empty cache and a backend reporting phase
Initializing for session 10 of user 1 classifies it as loading with no
status message. -/
theorem poll_phase_classification_witness :
    ∃ p : Payload,
      ( public_ide_poll (fun _ _ => some { state := "Initializing", session_id := 10 }) [] 1 10).response = .ok p ∧
      (p.loading = some true ↔
        (("Initializing" : String) ≠ "Running" ∧ ("Initializing" : String) ≠ "Ended" ∧
         ("Initializing" : String) ≠ "Failed")) ∧
      (("Initializing" : String) = "Running" →
        p.loading = some false ∧ p.status = some "Session is now ready." ∧
        p.variant = some "success") ∧
      (("Initializing" : String) = "Failed" →
        p.loading = some false ∧
        p.status = some "Session failed to start. Please try again." ∧
        p.variant = some "error") ∧
      (("Initializing" : String) ≠ "Running" → ("Initializing" : String) ≠ "Failed" →
        p.status = none ∧ p.variant = none) :=
  poll_phase_classification (fun _ _ => some { state := "Initializing", session_id := 10 })
    [] 1 10 { state := "Initializing", session_id := 10 } rfl

/-- C1: when the most recent inactive session of the caller used
persistent storage and ended less than the configured cooldown before the
call time, initialize returns a success response with the warning-variant
please-wait status, leaving the store unchanged and submitting nothing;
once at least the cooldown has elapsed, an otherwise-eligible request
creates a session. -/
theorem initialize_cooldown (env : InitEnv) (assignment : Assignment)
    (last : TheiaSession) (e : Int)
    (hide : assignment.ide_enabled = true)
    (hact : findActiveSession env.store env.user.id assignment.id = none)
    (hlast : lastInactiveSession env.store env.user.id = some last)
    (hper : last.persistent_storage = true)
    (hend : last.ended = some e) :
    (env.now - e < env.cooldown_config.getD 1 →
      public_ide_initialize env assignment =
        { response := .ok { status := some pleaseWaitMsg, variant := some "warning" }
          store := env.store, submissions := 0 }) ∧
    (env.cooldown_config.getD 1 ≤ env.now - e →
      env.theia_sessions_enabled = true →
      env.is_admin = false →
      assignment.release_date < env.now →
      env.now < assignment.due_date + 21 * 86400 →
      assignment.github_repo_required = false →
      ∃ sess : TheiaSession,
        public_ide_initialize env assignment =
          { response := .ok { active := some true, session := some sess.data,
                              status := some "Session created" }
            store := env.store ++ [sess], submissions := 1 }) := by
  constructor
  · intro hlt
    have hcool : cooldownCheck env = .wait := by
      simp [cooldownCheck, hlast, hper, hend, hlt]
    simp [ public_ide_initialize, hide, hact, hcool]
  · intro hge hen hadm hrel hdue hrepo
    have hcool : cooldownCheck env = .pass := by
      simp only [cooldownCheck, hlast, hper, hend, if_true]
      rw [if_neg (by omega)]
    have hdue2 : ¬ (assignment.due_date + 1814400 ≤ env.now) := by omega
    have hres : public_ide_initialize env assignment = ideInitCreate env assignment := by
      simp [ public_ide_initialize, hide, hact, hcool, ideInitAdmission, hen, hadm,
            hrel, hdue2]
    refine ⟨initialize_ide env.fresh_id env.user.id assignment.theia_image_id
      assignment.id assignment.course_id "" false (!env.is_admin)
      (assignment.theia_options.network_policy.getD "os-student")
      ((env.args_persistent_storage.getD "true") == "true")
      ((env.args_autosave.getD "true") == "true")
      (assignment.theia_options.resources.getD THEIA_DEFAULT_OPTIONS_resources)
      false env.is_admin env.is_admin env.now, ?_⟩
    rw [hres]
    simp [ideInitCreate, hrepo, hadm, initialize_ide, TheiaSession.data]

/-- C1 witness: with the concrete ended-at-150 persistent session and a
5-second cooldown, a call at time 152 gets the please-wait warning and no
record; a call at time 200 creates a session. -/
theorem initialize_cooldown_witness :
    public_ide_initialize (wEnv [wEndedSession] 152 false) wAssignment =
      { response := .ok { status := some pleaseWaitMsg, variant := some "warning" }
        store := [wEndedSession], submissions := 0 } ∧
    ∃ sess : TheiaSession,
      public_ide_initialize (wEnv [wEndedSession] 200 false) wAssignment =
        { response := .ok { active := some true, session := some sess.data,
                            status := some "Session created" }
          store := [wEndedSession] ++ [sess], submissions := 1 } :=
  ⟨(initialize_cooldown (wEnv [wEndedSession] 152 false) wAssignment wEndedSession
      150 rfl rfl rfl rfl rfl).1 (by decide),
   (initialize_cooldown (wEnv [wEndedSession] 200 false) wAssignment wEndedSession
      150 rfl rfl rfl rfl rfl).2 (by decide) rfl rfl (by decide) (by decide) rfl⟩

/-- C3: for a non-admin caller on an assignment whose due date plus 21
days is at or before the call time, initialize returns the soft disabled
decline — a transport-level success, not an assertion failure — and
neither changes the store nor submits anything. -/
theorem initialize_due_grace_soft (env : InitEnv) (assignment : Assignment)
    (hide : assignment.ide_enabled = true)
    (hact : findActiveSession env.store env.user.id assignment.id = none)
    (hcool : cooldownCheck env = .pass)
    (hen : env.theia_sessions_enabled = true)
    (hadm : env.is_admin = false)
    (hrel : assignment.release_date < env.now)
    (hdue : assignment.due_date + 21 * 86400 ≤ env.now) :
    public_ide_initialize env assignment =
      { response := .softError "Assignment due date passed over 3 weeks ago. IDEs are disabled."
        store := env.store, submissions := 0 } ∧
    transportSuccess ( public_ide_initialize env assignment).response = true := by
  have h : public_ide_initialize env assignment =
      { response := .softError "Assignment due date passed over 3 weeks ago. IDEs are disabled."
        store := env.store, submissions := 0 } := by
    have hdue2 : assignment.due_date + 1814400 ≤ env.now := by omega
    simp [ public_ide_initialize, hide, hact, hcool, ideInitAdmission, hen, hadm,
          hrel, hdue2]
  exact ⟨h, by rw [h]; rfl⟩

/-- C3 witness: a non-admin call at time 1814600, which is 21 days past
the concrete due date 200, gets the soft disabled decline, a transport
success, with no new record. -/
theorem initialize_due_grace_soft_witness :
    public_ide_initialize (wEnv [] 1814600 false) wAssignment =
      { response := .softError "Assignment due date passed over 3 weeks ago. IDEs are disabled."
        store := [], submissions := 0 } ∧
    transportSuccess ( public_ide_initialize (wEnv [] 1814600 false) wAssignment).response = true :=
  initialize_due_grace_soft (wEnv [] 1814600 false) wAssignment rfl rfl rfl rfl
    rfl (by decide) (by decide)

/-- C8: a course-admin caller skips the release-date and due-date checks —
the release and due dates here are arbitrary — and the created session
carries network policy admin regardless of the policy configured in the
assignment options. -/
theorem initialize_admin_bypass (env : InitEnv) (assignment : Assignment)
    (hide : assignment.ide_enabled = true)
    (hact : findActiveSession env.store env.user.id assignment.id = none)
    (hcool : cooldownCheck env = .pass)
    (hen : env.theia_sessions_enabled = true)
    (hadm : env.is_admin = true)
    (hrepo : assignment.github_repo_required = false) :
    ∃ sess : TheiaSession,
      public_ide_initialize env assignment =
        { response := .ok { active := some true, session := some sess.data,
                            status := some "Session created" }
          store := env.store ++ [sess], submissions := 1 } ∧
      sess.network_policy = "admin" := by
  refine ⟨initialize_ide env.fresh_id env.user.id assignment.theia_image_id
    assignment.id assignment.course_id "" false (!env.is_admin) "admin"
    ((env.args_persistent_storage.getD "true") == "true")
    ((env.args_autosave.getD "true") == "true")
    (assignment.theia_options.resources.getD THEIA_DEFAULT_OPTIONS_resources)
    false env.is_admin env.is_admin env.now, ?_, rfl⟩
  simp [ public_ide_initialize, hide, hact, hcool, ideInitAdmission, hen, hadm,
        ideInitCreate, hrepo, initialize_ide, TheiaSession.data]

/-- C8 witness: an admin call on an assignment that is unreleased, due
long in the past, and configured with an os-student network policy still
creates a session, and the created session has network policy admin. -/
theorem initialize_admin_bypass_witness :
    ∃ sess : TheiaSession,
      public_ide_initialize (wEnv [] 100 true)
        { wAssignment with release_date := 1000000000, due_date := -1000000000
                           theia_options := { network_policy := some "os-student" } } =
        { response := .ok { active := some true, session := some sess.data,
                            status := some "Session created" }
          store := [] ++ [sess], submissions := 1 } ∧
      sess.network_policy = "admin" :=
  initialize_admin_bypass (wEnv [] 100 true)
    { wAssignment with release_date := 1000000000, due_date := -1000000000
                       theia_options := { network_policy := some "os-student" } }
    rfl rfl rfl rfl rfl rfl

/-- C9: the autosave and persistent-storage options of a created session
are true exactly when the corresponding query argument is absent or is
the exact string true; any other string yields false. -/
theorem initialize_arg_parsing (env : InitEnv) (assignment : Assignment)
    (hide : assignment.ide_enabled = true)
    (hact : findActiveSession env.store env.user.id assignment.id = none)
    (hcool : cooldownCheck env = .pass)
    (hen : env.theia_sessions_enabled = true)
    (hadm : env.is_admin = true)
    (hrepo : assignment.github_repo_required = false) :
    ∃ sess : TheiaSession,
      ( public_ide_initialize env assignment).store = env.store ++ [sess] ∧
      (sess.autosave = true ↔
        (env.args_autosave = none ∨ env.args_autosave = some "true")) ∧
      (sess.persistent_storage = true ↔
        (env.args_persistent_storage = none ∨
         env.args_persistent_storage = some "true")) := by
  refine ⟨initialize_ide env.fresh_id env.user.id assignment.theia_image_id
    assignment.id assignment.course_id "" false (!env.is_admin) "admin"
    ((env.args_persistent_storage.getD "true") == "true")
    ((env.args_autosave.getD "true") == "true")
    (assignment.theia_options.resources.getD THEIA_DEFAULT_OPTIONS_resources)
    false env.is_admin env.is_admin env.now, ?_, ?_, ?_⟩
  · simp [ public_ide_initialize, hide, hact, hcool, ideInitAdmission, hen, hadm,
          ideInitCreate, hrepo, initialize_ide]
  · show ((env.args_autosave.getD "true") == "true") = true ↔ _
    cases env.args_autosave with
    | none => simp
    | some a => simp
  · show ((env.args_persistent_storage.getD "true") == "true") = true ↔ _
    cases env.args_persistent_storage with
    | none => simp
    | some a => simp

/-- C9 witness: with the autosave argument set to the string True and the
persistent-storage argument absent, the created session has autosave
false and persistent storage true. -/
theorem initialize_arg_parsing_witness :
    ∃ sess : TheiaSession,
      ( public_ide_initialize { wEnv [] 100 true with args_autosave := some "True" } wAssignment).store
        = [] ++ [sess] ∧
      (sess.autosave = true ↔
        ((some "True" : Option String) = none ∨
         (some "True" : Option String) = some "true")) ∧
      (sess.persistent_storage = true ↔
        ((none : Option String) = none ∨
         (none : Option String) = some "true")) :=
  initialize_arg_parsing { wEnv [] 100 true with args_autosave := some "True" }
    wAssignment rfl rfl rfl rfl rfl rfl

end Anubis
